import Mathlib

/-!
# QR-gen: logo overlay, form state, render pass and export

A shallow embedding of `src/App.jsx` (the React component `App`) and the
properties its specification states about it.

Conventions of the embedding:

* JavaScript numbers are exact rationals: the literal `0.22` is `22 / 100`,
  `0.12` is `12 / 100`, `Math.round v` is `⌊v + 1/2⌋` and `Math.floor v` is `⌊v⌋`.
* `canvas.width` and `canvas.height` are natural numbers (`unsigned long`).
* The 2D context is modelled by the list of calls made on it, in order.
* External behaviour (the `qrcode` encoder, image decoding, the clock, the
  browser download) is a parameter of the model, collected in `RenderEnv`.
* A React state update is the new state value; one handler or one render
  pass is one function from the old state to the new one.
-/

namespace QRGen

/-! ## JavaScript primitives -/

/-- The function `Math.round(v)`: the nearest integer, a half rounded up. -/
def mathRound (v : ℚ) : ℤ := ⌊v + 1 / 2⌋

/-- The function `Math.floor(v)`. -/
def mathFloor (v : ℚ) : ℤ := ⌊v⌋

/-- The result of `Number(s)`: `NaN` or a finite number. -/
inductive JsNumber where
  | nan
  | num (v : ℚ)
  deriving DecidableEq

/-- The expression `n || d` for a number `n`: `d` when `n` is falsy (`NaN` or zero), `n` otherwise. -/
def JsNumber.orElse : JsNumber → ℚ → ℚ
  | .nan, d => d
  | .num v, d => if v = 0 then d else v

/-- The expression `s || d` for a string `s`: `d` when `s` is falsy (the empty string), `s` otherwise. -/
def strOr (s d : String) : String := if s = "" then d else s

/-- A thrown (or rejected) value `e`; `message` is `e?.message` when that is a string,
`none` when `e` is nullish or carries no message (the `Event` of a failed image load). -/
structure JsError where
  message : Option String
  deriving DecidableEq

/-- The expression `e?.message || fallback`. -/
def JsError.messageOr (e : JsError) (fallback : String) : String :=
  match e.message with
  | some m => strOr m fallback
  | none => fallback

/-! ## The drawing surface -/

/-- A `<canvas>` element: its pixel size and whether `getContext("2d")` yields a context. -/
structure Canvas where
  width : ℕ
  height : ℕ
  has2d : Bool
  deriving DecidableEq

/-- One call made on a 2D context. -/
inductive CanvasOp where
  | save
  | restore
  | beginPath
  | closePath
  | fill
  | fillStyle (style : String)
  | fillRect (x y w h : ℚ)
  | moveTo (x y : ℚ)
  | arcTo (x1 y1 x2 y2 r : ℚ)
  | drawImage (src : String) (x y w h : ℚ)
  | drawCanvas (x y : ℚ)
  deriving DecidableEq

/-- The effective corner radius of `roundRect`: `Math.min(radius, width / 2, height / 2)`. -/
def roundRect.r (width height radius : ℚ) : ℚ :=
  min (min radius (width / 2)) (height / 2)

/-- The path traced by `roundRect(ctx, x, y, width, height, radius)`. -/
def roundRect (x y width height radius : ℚ) : List CanvasOp :=
  let r := roundRect.r width height radius
  [ .beginPath,
    .moveTo (x + r) y,
    .arcTo (x + width) y (x + width) (y + height) r,
    .arcTo (x + width) (y + height) x (y + height) r,
    .arcTo x (y + height) x y r,
    .arcTo x y (x + width) y r,
    .closePath ]

/-- In `drawLogo`: `side = Math.round(Math.min(W, H) * 0.22)`. -/
def drawLogo.side (W H : ℕ) : ℤ :=
  mathRound (((min W H : ℕ) : ℚ) * (22 / 100))

/-- In `drawLogo`: `x = Math.round((W - side) / 2)`. -/
def drawLogo.x (W H : ℕ) : ℤ :=
  mathRound (((W : ℚ) - (drawLogo.side W H : ℚ)) / 2)

/-- In `drawLogo`: `y = Math.round((H - side) / 2)`. -/
def drawLogo.y (W H : ℕ) : ℤ :=
  mathRound (((H : ℚ) - (drawLogo.side W H : ℚ)) / 2)

/-- In `drawLogo`: `radius = Math.max(6, Math.floor(side * 0.12))`. -/
def drawLogo.radius (side : ℤ) : ℤ :=
  max 6 (mathFloor ((side : ℚ) * (12 / 100)))

/-- The function `drawLogo(canvas, dataUrl)`; `imgLoad` is the outcome of decoding `dataUrl`
(the awaited `onload` / `onerror` promise). It returns the calls made on the context, or
the rejection of the image load. -/
def drawLogo (canvas : Canvas) (dataUrl : String) (imgLoad : Except JsError Unit) :
    Except JsError (List CanvasOp) :=
  if canvas.has2d = false then .ok []
  else
    match imgLoad with
    | .error e => .error e
    | .ok _ =>
      let W := canvas.width
      let H := canvas.height
      let side := drawLogo.side W H
      let x := drawLogo.x W H
      let y := drawLogo.y W H
      let radius := drawLogo.radius side
      .ok ([CanvasOp.save]
        ++ roundRect ((x : ℚ) - 6) ((y : ℚ) - 6) ((side : ℚ) + 12) ((side : ℚ) + 12) (radius : ℚ)
        ++ [CanvasOp.fillStyle "#ffffff", CanvasOp.fill, CanvasOp.restore,
            CanvasOp.drawImage dataUrl (x : ℚ) (y : ℚ) (side : ℚ) (side : ℚ)])

/-! ## Form state -/

/-- The `useState` cells of `App`. -/
structure AppState where
  text : String
  size : ℚ
  margin : ℚ
  ecLevel : String
  fg : String
  bg : String
  logoFile : Option String
  logoDataUrl : Option String
  error : Option String
  renderCount : ℕ
  deriving DecidableEq

/-- The initial values passed to `useState`. -/
def initialState : AppState where
  text := "https://example.com"
  size := 320
  margin := 4
  ecLevel := "M"
  fg := "#111827"
  bg := "#ffffff"
  logoFile := none
  logoDataUrl := none
  error := none
  renderCount := 0

/-- The encoding options object handed to the `qrcode` library. -/
structure Options where
  width : ℚ
  margin : ℚ
  errorCorrectionLevel : String
  dark : String
  light : String
  deriving DecidableEq

/-- The memoised `options` value derived from the form state. -/
def options (st : AppState) : Options where
  width := st.size
  margin := st.margin
  errorCorrectionLevel := st.ecLevel
  dark := st.fg
  light := st.bg

/-- The size field handler: `setSize(Number(e.target.value) || 320)`;
`v` is `Number(e.target.value)`. -/
def sizeOnChange (st : AppState) (v : JsNumber) : AppState :=
  { st with size := v.orElse 320 }

/-- The margin field handler: `setMargin(Number(e.target.value) || 4)`;
`v` is `Number(e.target.value)`. -/
def marginOnChange (st : AppState) (v : JsNumber) : AppState :=
  { st with margin := v.orElse 4 }

/-- The function `resetAll()`. -/
def resetAll (st : AppState) : AppState :=
  { st with
    text := ""
    size := 320
    margin := 4
    ecLevel := "M"
    fg := "#111827"
    bg := "#ffffff"
    logoFile := none
    logoDataUrl := none }

/-- The events on the numeric part of the form. -/
inductive FormEvent where
  | sizeChange (v : JsNumber)
  | marginChange (v : JsNumber)
  | reset
  deriving DecidableEq

/-- One event applied to the state. -/
def FormEvent.step (st : AppState) : FormEvent → AppState
  | .sizeChange v => sizeOnChange st v
  | .marginChange v => marginOnChange st v
  | .reset => resetAll st

/-- A sequence of events applied in order. -/
def runEvents (st : AppState) (evs : List FormEvent) : AppState :=
  evs.foldl FormEvent.step st

/-- A number lies in the closed range from `lo` to `hi` (`NaN` lies in no range). -/
def JsNumber.within (lo hi : ℚ) : JsNumber → Bool
  | .nan => false
  | .num q => decide (lo ≤ q ∧ q ≤ hi)

/-- A number is falsy: `NaN` or zero. An emptied number field gives `Number("") = 0`. -/
def JsNumber.falsy : JsNumber → Bool
  | .nan => true
  | .num q => decide (q = 0)

/-- The value of an event lies in the range its field declares (`min={120} max={1024}` for
the size field, `min={0} max={20}` for the margin field) or is falsy (an emptied field,
zero, `NaN`); `reset` carries no value. -/
def FormEvent.inRangeOrFalsy : FormEvent → Bool
  | .sizeChange v => v.within 120 1024 || v.falsy
  | .marginChange v => v.within 0 20 || v.falsy
  | .reset => true

/-! ## The render pass and the exports -/

/-- Which entry point of the `qrcode` library is called. -/
inductive EncoderApi where
  | toCanvas
  | toString
  deriving DecidableEq

/-- One call of the encoder: entry point, text payload, options, and the `type` key that
the SVG export adds to the options. -/
structure EncoderCall where
  api : EncoderApi
  payload : String
  opts : Options
  type : Option String
  deriving DecidableEq

/-- Everything outside `App` that a render pass or an export depends on. -/
structure RenderEnv where
  /-- The value of `canvasRef.current`. -/
  canvas : Option Canvas
  /-- The outcome of `QRCode.toCanvas(canvas, payload, options)`: the painted canvas, or
  the exception. -/
  toCanvas : Canvas → String → Options → Except JsError Canvas
  /-- The outcome of decoding a logo data URL into an image. -/
  loadImage : String → Except JsError Unit
  /-- The outcome of `QRCode.toString(payload, options)` with `type: "svg"`. -/
  toStringSvg : String → Options → Except JsError String
  /-- The value of `Date.now()`, in milliseconds. -/
  now : ℕ
  /-- Whether `getContext("2d")` on the temporary export canvas yields a context. -/
  tmpHas2d : Bool
  /-- The result of `tmp.toDataURL("image/png")` after the given calls on `tmp`. -/
  toDataURL : List CanvasOp → String
  /-- The result of `URL.createObjectURL` on a blob with the given content. -/
  createObjectURL : String → String

/-- What one render pass leaves behind: the state, the calls made on the context of the
canvas, the encoder calls, and an exception that escaped the pass (if any). -/
structure DrawResult where
  state : AppState
  ops : List CanvasOp
  calls : List EncoderCall
  uncaught : Option JsError

/-- The render pass `draw()` of the effect on `[text, options, logoDataUrl]`. -/
def draw (st : AppState) (env : RenderEnv) : DrawResult :=
  let st1 := { st with error := none }
  match env.canvas with
  | none => ⟨st1, [], [], none⟩
  | some canvas =>
    if canvas.has2d = false then
      ⟨st1, [], [], some ⟨some "Cannot set properties of null"⟩⟩
    else
      let pre := [CanvasOp.fillStyle "linear-gradient(to bottom right, #e0e7ff, #f9fafb)",
        CanvasOp.fillRect 0 0 canvas.width canvas.height]
      let call : EncoderCall := ⟨.toCanvas, strOr st.text " ", options st, none⟩
      match env.toCanvas canvas (strOr st.text " ") (options st) with
      | .error e =>
        ⟨{ st1 with error := some (e.messageOr "Failed to render QR") }, pre, [call], none⟩
      | .ok painted =>
        match st.logoDataUrl with
        | none => ⟨{ st1 with renderCount := st1.renderCount + 1 }, pre, [call], none⟩
        | some url =>
          if url = "" then
            ⟨{ st1 with renderCount := st1.renderCount + 1 }, pre, [call], none⟩
          else
            match drawLogo painted url (env.loadImage url) with
            | .error e =>
              ⟨{ st1 with error := some (e.messageOr "Failed to render QR") }, pre, [call],
                none⟩
            | .ok logoOps =>
              ⟨{ st1 with renderCount := st1.renderCount + 1 }, pre ++ logoOps, [call], none⟩

/-- A download started through a temporary `<a>` element. -/
structure Download where
  href : String
  filename : String
  deriving DecidableEq

/-- The function `triggerDownload(url, filename)`. -/
def triggerDownload (url filename : String) : Download := ⟨url, filename⟩

/-- The PNG file name, the template literal with `Date.now()` = `t` filled in. -/
def pngName (t : ℕ) : String := s!"qr-{t}.png"

/-- The SVG file name, the template literal with `Date.now()` = `t` filled in. -/
def svgName (t : ℕ) : String := s!"qr-{t}.svg"

/-- What an export leaves behind: the state, the downloads started, the encoder calls. -/
structure ExportResult where
  state : AppState
  downloads : List Download
  calls : List EncoderCall

/-- The function `downloadPNG()`. -/
def downloadPNG (st : AppState) (env : RenderEnv) : ExportResult :=
  match env.canvas with
  | none => ⟨st, [], []⟩
  | some canvas =>
    if env.tmpHas2d = false then ⟨st, [], []⟩
    else
      let tmpOps := [CanvasOp.fillStyle (strOr st.bg "#ffffff"),
        CanvasOp.fillRect 0 0 canvas.width canvas.height,
        CanvasOp.drawCanvas 0 0]
      ⟨st, [triggerDownload (env.toDataURL tmpOps) (pngName env.now)], []⟩

/-- The function `downloadSVG()`. -/
def downloadSVG (st : AppState) (env : RenderEnv) : ExportResult :=
  let call : EncoderCall := ⟨.toString, strOr st.text " ", options st, some "svg"⟩
  match env.toStringSvg (strOr st.text " ") (options st) with
  | .ok svgString =>
    ⟨st, [triggerDownload (env.createObjectURL svgString) (svgName env.now)], [call]⟩
  | .error e =>
    ⟨{ st with error := some (e.messageOr "Failed to export SVG") }, [], [call]⟩

/-- The number that a list of decimal digit characters denotes, the most significant digit
first; it reads back the decimal numeral that a template literal prints for a number. -/
def decimalValue (cs : List Char) : ℕ :=
  cs.foldl (fun acc c => 10 * acc + (c.toNat - 48)) 0

/-! ## Sample inputs -/

/-- A 320 by 320 canvas with a 2D context. -/
def sampleCanvas : Canvas := ⟨320, 320, true⟩

/-- An environment in which every external call succeeds. -/
def sampleEnv : RenderEnv where
  canvas := some sampleCanvas
  toCanvas := fun c _ _ => .ok c
  loadImage := fun _ => .ok ()
  toStringSvg := fun _ _ => .ok "<svg/>"
  now := 1700000000000
  tmpHas2d := true
  toDataURL := fun _ => "data:image/png;base64,"
  createObjectURL := fun _ => "blob:qr"

/-- An environment in which the encoder rejects every payload. -/
def failingEnv : RenderEnv :=
  { sampleEnv with toCanvas := fun _ _ _ => .error ⟨some "The amount of data is too big"⟩ }

/-! ## Arithmetic of the logo geometry -/

theorem mathRound_eq_div (n : ℤ) (d : ℕ) (v : ℚ) (h : v + 1 / 2 = (n : ℚ) / (d : ℚ)) :
    mathRound v = n / (d : ℤ) := by
  unfold mathRound
  rw [h, Rat.floor_intCast_div_natCast]

theorem side_eq_div (W H : ℕ) :
    drawLogo.side W H = (22 * ((min W H : ℕ) : ℤ) + 50) / 100 := by
  unfold drawLogo.side
  have h := mathRound_eq_div (22 * ((min W H : ℕ) : ℤ) + 50) 100
    (((min W H : ℕ) : ℚ) * (22 / 100)) (by push_cast; ring)
  simpa using h

theorem x_eq_div (W H : ℕ) :
    drawLogo.x W H = ((W : ℤ) - drawLogo.side W H + 1) / 2 := by
  unfold drawLogo.x
  have h := mathRound_eq_div ((W : ℤ) - drawLogo.side W H + 1) 2
    (((W : ℚ) - (drawLogo.side W H : ℚ)) / 2) (by push_cast; ring)
  simpa using h

theorem y_eq_div (W H : ℕ) :
    drawLogo.y W H = ((H : ℤ) - drawLogo.side W H + 1) / 2 := by
  unfold drawLogo.y
  have h := mathRound_eq_div ((H : ℤ) - drawLogo.side W H + 1) 2
    (((H : ℚ) - (drawLogo.side W H : ℚ)) / 2) (by push_cast; ring)
  simpa using h

theorem radius_eq_div (side : ℤ) : drawLogo.radius side = max 6 (12 * side / 100) := by
  unfold drawLogo.radius mathFloor
  have h : (side : ℚ) * (12 / 100) = ((12 * side : ℤ) : ℚ) / ((100 : ℕ) : ℚ) := by
    push_cast; ring
  rw [h, Rat.floor_intCast_div_natCast]
  norm_num

theorem drawLogo_ok (W H : ℕ) (url : String) :
    drawLogo ⟨W, H, true⟩ url (.ok ()) = .ok ([CanvasOp.save]
      ++ roundRect ((drawLogo.x W H : ℚ) - 6) ((drawLogo.y W H : ℚ) - 6)
          ((drawLogo.side W H : ℚ) + 12) ((drawLogo.side W H : ℚ) + 12)
          (drawLogo.radius (drawLogo.side W H) : ℚ)
      ++ [CanvasOp.fillStyle "#ffffff", CanvasOp.fill, CanvasOp.restore,
          CanvasOp.drawImage url (drawLogo.x W H : ℚ) (drawLogo.y W H : ℚ)
            (drawLogo.side W H : ℚ) (drawLogo.side W H : ℚ)]) := by
  simp [drawLogo]

/-! ## The logo overlay -/

/-- C1: on a surface of width `W` and height `H`, `drawLogo` draws the backing plate with
side length `side + 12` and the logo with side length `side`, where `side` is exactly
`round(0.22 * min(W, H))`, and the plate side never exceeds `0.22 * min(W, H) + 24`. -/
theorem logo_overlay_size_bound (W H : ℕ) (url : String) :
    ∃ (side x y : ℤ) (r : ℚ),
      drawLogo ⟨W, H, true⟩ url (.ok ()) = .ok ([CanvasOp.save]
        ++ roundRect ((x : ℚ) - 6) ((y : ℚ) - 6) ((side : ℚ) + 12) ((side : ℚ) + 12) r
        ++ [CanvasOp.fillStyle "#ffffff", CanvasOp.fill, CanvasOp.restore,
            CanvasOp.drawImage url (x : ℚ) (y : ℚ) (side : ℚ) (side : ℚ)]) ∧
      side = ⌊(22 / 100 : ℚ) * ((min W H : ℕ) : ℚ) + 1 / 2⌋ ∧
      (side : ℚ) + 12 ≤ (22 / 100 : ℚ) * ((min W H : ℕ) : ℚ) + 24 := by
  refine ⟨drawLogo.side W H, drawLogo.x W H, drawLogo.y W H,
    (drawLogo.radius (drawLogo.side W H) : ℚ), drawLogo_ok W H url, ?_, ?_⟩
  · unfold drawLogo.side mathRound
    rw [mul_comm]
  · have h : ((drawLogo.side W H : ℤ) : ℚ) ≤ ((min W H : ℕ) : ℚ) * (22 / 100) + 1 / 2 := by
      unfold drawLogo.side mathRound
      exact Int.floor_le _
    linarith

/-- C2: the logo drawn by `drawLogo` is centered: its left offset `x` and its right gap
`W - side - x` differ by 0 or 1, likewise `y` and `H - side - y`, and the backing plate at
`(x - 6, y - 6)` with side `side + 12` has the same center as the logo square. -/
theorem logo_overlay_centered (W H : ℕ) (url : String) :
    ∃ (side x y : ℤ) (r : ℚ),
      drawLogo ⟨W, H, true⟩ url (.ok ()) = .ok ([CanvasOp.save]
        ++ roundRect ((x : ℚ) - 6) ((y : ℚ) - 6) ((side : ℚ) + 12) ((side : ℚ) + 12) r
        ++ [CanvasOp.fillStyle "#ffffff", CanvasOp.fill, CanvasOp.restore,
            CanvasOp.drawImage url (x : ℚ) (y : ℚ) (side : ℚ) (side : ℚ)]) ∧
      side = mathRound ((22 / 100 : ℚ) * ((min W H : ℕ) : ℚ)) ∧
      x = mathRound (((W : ℚ) - (side : ℚ)) / 2) ∧
      y = mathRound (((H : ℚ) - (side : ℚ)) / 2) ∧
      (x - ((W : ℤ) - side - x) = 0 ∨ x - ((W : ℤ) - side - x) = 1) ∧
      (y - ((H : ℤ) - side - y) = 0 ∨ y - ((H : ℤ) - side - y) = 1) ∧
      ((x : ℚ) - 6) + ((side : ℚ) + 12) / 2 = (x : ℚ) + (side : ℚ) / 2 ∧
      ((y : ℚ) - 6) + ((side : ℚ) + 12) / 2 = (y : ℚ) + (side : ℚ) / 2 := by
  refine ⟨drawLogo.side W H, drawLogo.x W H, drawLogo.y W H,
    (drawLogo.radius (drawLogo.side W H) : ℚ), drawLogo_ok W H url, ?_, rfl, rfl, ?_, ?_, ?_, ?_⟩
  · unfold drawLogo.side
    rw [mul_comm]
  · have hx := x_eq_div W H
    omega
  · have hy := y_eq_div W H
    omega
  · ring
  · ring

/-- C3: `drawLogo` passes to `roundRect` exactly the rectangle with origin `(x - 6, y - 6)`
and width and height `side + 12`, with requested radius `max(6, floor(side * 0.12))`; the
plate reaches 6 pixels beyond the logo square on each of its four edges; it is filled
white, and the logo is then drawn at `(x, y)` scaled to `side` by `side`. -/
theorem logo_backing_plate (W H : ℕ) (url : String) :
    ∃ (side x y : ℤ) (px py pw ph : ℚ),
      side = drawLogo.side W H ∧ x = drawLogo.x W H ∧ y = drawLogo.y W H ∧
      drawLogo ⟨W, H, true⟩ url (.ok ()) = .ok ([CanvasOp.save]
        ++ roundRect px py pw ph ((max 6 ⌊(side : ℚ) * (12 / 100)⌋ : ℤ) : ℚ)
        ++ [CanvasOp.fillStyle "#ffffff", CanvasOp.fill, CanvasOp.restore,
            CanvasOp.drawImage url (x : ℚ) (y : ℚ) (side : ℚ) (side : ℚ)]) ∧
      px = (x : ℚ) - 6 ∧ py = (y : ℚ) - 6 ∧ pw = (side : ℚ) + 12 ∧ ph = (side : ℚ) + 12 ∧
      px + pw = ((x : ℚ) + (side : ℚ)) + 6 ∧ py + ph = ((y : ℚ) + (side : ℚ)) + 6 := by
  refine ⟨drawLogo.side W H, drawLogo.x W H, drawLogo.y W H, _, _, _, _, rfl, rfl, rfl,
    drawLogo_ok W H url, rfl, rfl, rfl, rfl, ?_, ?_⟩
  · ring
  · ring

/-- C9: on a surface with `W ≥ 120` and `H ≥ 120` the backing plate drawn by `drawLogo`,
from `(x - 6, y - 6)` to `(x + side + 6, y + side + 6)`, lies inside the surface, and so
does the logo square. -/
theorem logo_plate_inside_surface (W H : ℕ) (url : String) (hW : 120 ≤ W) (hH : 120 ≤ H) :
    ∃ (side x y : ℤ) (r : ℚ),
      drawLogo ⟨W, H, true⟩ url (.ok ()) = .ok ([CanvasOp.save]
        ++ roundRect ((x : ℚ) - 6) ((y : ℚ) - 6) ((side : ℚ) + 12) ((side : ℚ) + 12) r
        ++ [CanvasOp.fillStyle "#ffffff", CanvasOp.fill, CanvasOp.restore,
            CanvasOp.drawImage url (x : ℚ) (y : ℚ) (side : ℚ) (side : ℚ)]) ∧
      (0 ≤ x - 6 ∧ x + side + 6 ≤ (W : ℤ) ∧ 0 ≤ y - 6 ∧ y + side + 6 ≤ (H : ℤ)) ∧
      (0 ≤ x ∧ x + side ≤ (W : ℤ) ∧ 0 ≤ y ∧ y + side ≤ (H : ℤ)) := by
  refine ⟨drawLogo.side W H, drawLogo.x W H, drawLogo.y W H,
    (drawLogo.radius (drawLogo.side W H) : ℚ), drawLogo_ok W H url, ?_⟩
  have hs := side_eq_div W H
  have hx := x_eq_div W H
  have hy := y_eq_div W H
  have hm : ((min W H : ℕ) : ℤ) ≤ W ∧ ((min W H : ℕ) : ℤ) ≤ H ∧ (120 : ℤ) ≤ ((min W H : ℕ) : ℤ) := by
    have := Nat.min_le_left W H
    have := Nat.min_le_right W H
    have : 120 ≤ min W H := le_min hW hH
    omega
  omega

/-- Witness for C9 on the default 320 by 320 surface. -/
theorem logo_plate_inside_surface_witness :
    (120 ≤ 320 ∧ 120 ≤ 320) ∧
    ∃ (side x y : ℤ) (r : ℚ),
      drawLogo ⟨320, 320, true⟩ "data:logo" (.ok ()) = .ok ([CanvasOp.save]
        ++ roundRect ((x : ℚ) - 6) ((y : ℚ) - 6) ((side : ℚ) + 12) ((side : ℚ) + 12) r
        ++ [CanvasOp.fillStyle "#ffffff", CanvasOp.fill, CanvasOp.restore,
            CanvasOp.drawImage "data:logo" (x : ℚ) (y : ℚ) (side : ℚ) (side : ℚ)]) ∧
      (0 ≤ x - 6 ∧ x + side + 6 ≤ ((320 : ℕ) : ℤ) ∧ 0 ≤ y - 6 ∧ y + side + 6 ≤ ((320 : ℕ) : ℤ)) ∧
      (0 ≤ x ∧ x + side ≤ ((320 : ℕ) : ℤ) ∧ 0 ≤ y ∧ y + side ≤ ((320 : ℕ) : ℤ)) :=
  ⟨by decide, logo_plate_inside_surface 320 320 "data:logo" (by decide) (by decide)⟩

/-- C10: for every `side ≥ 0` the clamp of `roundRect` leaves the radius of the backing
plate unchanged: with `radius = max(6, floor(side * 0.12))` and width and height
`side + 12`, the effective radius `min(radius, width / 2, height / 2)` is `radius`, and the
path is traced with that radius. -/
theorem plate_radius_not_clamped (side : ℤ) (h : 0 ≤ side) (x y : ℚ) :
    roundRect.r ((side : ℚ) + 12) ((side : ℚ) + 12) (drawLogo.radius side : ℚ)
      = (drawLogo.radius side : ℚ) ∧
    drawLogo.radius side = max 6 ⌊(side : ℚ) * (12 / 100)⌋ ∧
    roundRect x y ((side : ℚ) + 12) ((side : ℚ) + 12) (drawLogo.radius side : ℚ) =
      [ CanvasOp.beginPath,
        CanvasOp.moveTo (x + (drawLogo.radius side : ℚ)) y,
        CanvasOp.arcTo (x + ((side : ℚ) + 12)) y (x + ((side : ℚ) + 12)) (y + ((side : ℚ) + 12))
          (drawLogo.radius side : ℚ),
        CanvasOp.arcTo (x + ((side : ℚ) + 12)) (y + ((side : ℚ) + 12)) x (y + ((side : ℚ) + 12))
          (drawLogo.radius side : ℚ),
        CanvasOp.arcTo x (y + ((side : ℚ) + 12)) x y (drawLogo.radius side : ℚ),
        CanvasOp.arcTo x y (x + ((side : ℚ) + 12)) y (drawLogo.radius side : ℚ),
        CanvasOp.closePath ] := by
  have hr : roundRect.r ((side : ℚ) + 12) ((side : ℚ) + 12) (drawLogo.radius side : ℚ)
      = (drawLogo.radius side : ℚ) := by
    have h2 : 2 * drawLogo.radius side ≤ side + 12 := by
      rw [radius_eq_div]; omega
    have h3 : ((drawLogo.radius side : ℤ) : ℚ) ≤ ((side : ℚ) + 12) / 2 := by
      have : ((2 * drawLogo.radius side : ℤ) : ℚ) ≤ ((side + 12 : ℤ) : ℚ) := by
        exact_mod_cast h2
      push_cast at this
      linarith
    unfold roundRect.r
    rw [min_eq_left h3, min_eq_left h3]
  refine ⟨hr, rfl, ?_⟩
  unfold roundRect
  simp only [hr]

/-- Witness for C10 at `side = 70`, the logo side on the default 320 by 320 surface. -/
theorem plate_radius_not_clamped_witness :
    (0 : ℤ) ≤ 70 ∧
    roundRect.r (((70 : ℤ) : ℚ) + 12) (((70 : ℤ) : ℚ) + 12) (drawLogo.radius 70 : ℚ)
      = (drawLogo.radius 70 : ℚ) :=
  ⟨by decide, (plate_radius_not_clamped 70 (by decide) 0 0).1⟩

/-! ## The encoder payload -/

theorem strOr_ne_empty (s d : String) (hd : d ≠ "") : strOr s d ≠ "" := by
  unfold strOr
  split
  · exact hd
  · assumption

/-- C4: the payload handed to the encoder is never the empty string: it is `" "` when
`text` is empty and `text` otherwise; every encoder call of the render pass `draw` carries
it (and with a surface present there is exactly one such call, to `QRCode.toCanvas`), and
the one encoder call of `downloadSVG` (to `QRCode.toString`) carries the same payload. -/
theorem encoder_payload_never_empty (st : AppState) (env : RenderEnv) :
    ∃ p : String,
      p ≠ "" ∧ (st.text = "" → p = " ") ∧ (st.text ≠ "" → p = st.text) ∧
      (∀ c ∈ (draw st env).calls, c.api = EncoderApi.toCanvas ∧ c.payload = p) ∧
      (∀ cv, env.canvas = some cv → cv.has2d = true →
        ∃ c, (draw st env).calls = [c] ∧ c.api = EncoderApi.toCanvas ∧ c.payload = p) ∧
      (∃ c, (downloadSVG st env).calls = [c] ∧ c.api = EncoderApi.toString ∧ c.payload = p) := by
  refine ⟨strOr st.text " ", strOr_ne_empty _ _ (by decide), ?_, ?_, ?_, ?_, ?_⟩
  · intro h; simp [strOr, h]
  · intro h; simp [strOr, h]
  · intro c hc
    unfold draw at hc
    revert hc
    repeat' split
    all_goals simp
    all_goals (intro hc; subst hc; exact ⟨rfl, rfl⟩)
  · intro cv hcv h2d
    unfold draw
    rw [hcv]
    simp only [h2d]
    repeat' split
    all_goals simp_all
  · unfold downloadSVG
    split <;> simp

/-- Witness for C4: the reset state (empty text) on the sample surface. -/
theorem encoder_payload_never_empty_witness :
    ∃ p : String,
      p ≠ "" ∧ ((resetAll initialState).text = "" → p = " ") ∧
      ((resetAll initialState).text ≠ "" → p = (resetAll initialState).text) ∧
      (∀ c ∈ (draw (resetAll initialState) sampleEnv).calls,
        c.api = EncoderApi.toCanvas ∧ c.payload = p) ∧
      (∀ cv, sampleEnv.canvas = some cv → cv.has2d = true →
        ∃ c, (draw (resetAll initialState) sampleEnv).calls = [c] ∧
          c.api = EncoderApi.toCanvas ∧ c.payload = p) ∧
      (∃ c, (downloadSVG (resetAll initialState) sampleEnv).calls = [c] ∧
        c.api = EncoderApi.toString ∧ c.payload = p) :=
  encoder_payload_never_empty (resetAll initialState) sampleEnv

/-! ## The numeric form fields -/

/-- C5 at the failing input: entering `0` into the margin field, whose stated range starts
at `0`, leaves the margin state at the fallback `4` (not `0`), and so does the derived
`options.margin`; every other integer of the range is stored as entered. -/
theorem margin_zero_falls_back (st : AppState) :
    (marginOnChange st (.num 0)).margin = 4 ∧
    (options (marginOnChange st (.num 0))).margin = 4 ∧
    (marginOnChange st (.num 0)).margin ≠ 0 ∧
    (∀ m : ℤ, 1 ≤ m → m ≤ 20 →
      (marginOnChange st (.num (m : ℚ))).margin = (m : ℚ) ∧
      (options (marginOnChange st (.num (m : ℚ)))).margin = (m : ℚ)) := by
  refine ⟨by simp [marginOnChange, JsNumber.orElse], by simp [marginOnChange, JsNumber.orElse, options],
    by simp [marginOnChange, JsNumber.orElse], ?_⟩
  intro m h1 _
  have hm : (m : ℚ) ≠ 0 := by
    have : m ≠ 0 := by omega
    exact_mod_cast this
  simp [marginOnChange, JsNumber.orElse, options, hm]

/-- Witness for C5: the margin `7` is stored as entered, from the initial state. -/
theorem margin_zero_falls_back_witness :
    (1 : ℤ) ≤ 7 ∧ (7 : ℤ) ≤ 20 ∧
    (marginOnChange initialState (.num ((7 : ℤ) : ℚ))).margin = ((7 : ℤ) : ℚ) ∧
    (options (marginOnChange initialState (.num ((7 : ℤ) : ℚ)))).margin = ((7 : ℤ) : ℚ) :=
  ⟨by decide, by decide,
    (margin_zero_falls_back initialState).2.2.2 7 (by decide) (by decide)⟩

/-- C6 fails as stated: the size field handler stores whatever non-zero number the field
holds, so entering `5000` from the initial state leaves `size = 5000`, above `1024`, and
`options.width` with it. -/
theorem form_state_range_counterexample :
    (runEvents initialState [FormEvent.sizeChange (.num 5000)]).size = 5000 ∧
    (options (runEvents initialState [FormEvent.sizeChange (.num 5000)])).width = 5000 ∧
    ¬ ((runEvents initialState [FormEvent.sizeChange (.num 5000)]).size ≤ 1024) := by
  have h : (runEvents initialState [FormEvent.sizeChange (.num 5000)]).size = 5000 := by
    simp [runEvents, FormEvent.step, sizeOnChange, JsNumber.orElse]
  refine ⟨h, ?_, ?_⟩
  · simpa [options] using h
  · rw [h]; norm_num

theorem within_orElse (lo hi d : ℚ) (hd : lo ≤ d ∧ d ≤ hi) (v : JsNumber)
    (hv : (v.within lo hi || v.falsy) = true) : lo ≤ v.orElse d ∧ v.orElse d ≤ hi := by
  cases v with
  | nan => simpa [JsNumber.orElse] using hd
  | num q =>
    simp only [JsNumber.within, JsNumber.falsy, Bool.or_eq_true, decide_eq_true_eq] at hv
    simp only [JsNumber.orElse]
    split_ifs with h0
    · exact hd
    · rcases hv with hv | hv
      · exact hv
      · exact absurd hv h0

theorem step_keeps_range (st : AppState) (e : FormEvent) (he : e.inRangeOrFalsy = true)
    (hst : (120 ≤ st.size ∧ st.size ≤ 1024) ∧ (0 ≤ st.margin ∧ st.margin ≤ 20)) :
    (120 ≤ (FormEvent.step st e).size ∧ (FormEvent.step st e).size ≤ 1024) ∧
    (0 ≤ (FormEvent.step st e).margin ∧ (FormEvent.step st e).margin ≤ 20) := by
  cases e with
  | sizeChange v =>
    exact ⟨within_orElse 120 1024 320 (by norm_num) v he, hst.2⟩
  | marginChange v =>
    exact ⟨hst.1, within_orElse 0 20 4 (by norm_num) v he⟩
  | reset =>
    simp only [FormEvent.step, resetAll]
    norm_num

theorem runEvents_keeps_range (evs : List FormEvent) :
    ∀ st : AppState, (∀ e ∈ evs, e.inRangeOrFalsy = true) →
      ((120 ≤ st.size ∧ st.size ≤ 1024) ∧ (0 ≤ st.margin ∧ st.margin ≤ 20)) →
      (120 ≤ (runEvents st evs).size ∧ (runEvents st evs).size ≤ 1024) ∧
      (0 ≤ (runEvents st evs).margin ∧ (runEvents st evs).margin ≤ 20) := by
  induction evs with
  | nil => intro st _ hst; simpa [runEvents] using hst
  | cons e rest ih =>
    intro st hall hst
    have hstep := step_keeps_range st e (hall e (List.mem_cons_self _ _)) hst
    have := ih (FormEvent.step st e) (fun e2 h2 => hall e2 (List.mem_cons_of_mem _ h2)) hstep
    simpa [runEvents] using this

/-- C6 as amended: starting from the initial state, after any sequence of size-field
changes, margin-field changes and `resetAll` calls in which every entered value either lies
in the stated range of its field or is falsy (an emptied field, zero or `NaN`, which the
handler replaces by the default), `size` is in `[120, 1024]` and `margin` in `[0, 20]`, and
so are the derived `options.width` and `options.margin`. -/
theorem form_state_in_range (evs : List FormEvent)
    (h : ∀ e ∈ evs, e.inRangeOrFalsy = true) :
    (120 ≤ (runEvents initialState evs).size ∧ (runEvents initialState evs).size ≤ 1024) ∧
    (0 ≤ (runEvents initialState evs).margin ∧ (runEvents initialState evs).margin ≤ 20) ∧
    (120 ≤ (options (runEvents initialState evs)).width ∧
      (options (runEvents initialState evs)).width ≤ 1024) ∧
    (0 ≤ (options (runEvents initialState evs)).margin ∧
      (options (runEvents initialState evs)).margin ≤ 20) := by
  have h0 : (120 ≤ initialState.size ∧ initialState.size ≤ 1024) ∧
      (0 ≤ initialState.margin ∧ initialState.margin ≤ 20) := by
    simp only [initialState]; norm_num
  have := runEvents_keeps_range evs initialState h h0
  exact ⟨this.1, this.2, this.1, this.2⟩

/-- Witness for the amended C6: in-range values, an emptied size field (`0`), a `NaN`, a
zero margin and a reset. -/
theorem form_state_in_range_witness :
    (∀ e ∈ [FormEvent.sizeChange (.num 512), FormEvent.marginChange (.num 20),
        FormEvent.sizeChange (.num 0), FormEvent.marginChange .nan, FormEvent.reset,
        FormEvent.marginChange (.num 0), FormEvent.sizeChange (.num 1024)],
      e.inRangeOrFalsy = true) ∧
    (120 ≤ (runEvents initialState [FormEvent.sizeChange (.num 512),
        FormEvent.marginChange (.num 20), FormEvent.sizeChange (.num 0),
        FormEvent.marginChange .nan, FormEvent.reset, FormEvent.marginChange (.num 0),
        FormEvent.sizeChange (.num 1024)]).size ∧
      (runEvents initialState [FormEvent.sizeChange (.num 512),
        FormEvent.marginChange (.num 20), FormEvent.sizeChange (.num 0),
        FormEvent.marginChange .nan, FormEvent.reset, FormEvent.marginChange (.num 0),
        FormEvent.sizeChange (.num 1024)]).size ≤ 1024) ∧
    (0 ≤ (runEvents initialState [FormEvent.sizeChange (.num 512),
        FormEvent.marginChange (.num 20), FormEvent.sizeChange (.num 0),
        FormEvent.marginChange .nan, FormEvent.reset, FormEvent.marginChange (.num 0),
        FormEvent.sizeChange (.num 1024)]).margin ∧
      (runEvents initialState [FormEvent.sizeChange (.num 512),
        FormEvent.marginChange (.num 20), FormEvent.sizeChange (.num 0),
        FormEvent.marginChange .nan, FormEvent.reset, FormEvent.marginChange (.num 0),
        FormEvent.sizeChange (.num 1024)]).margin ≤ 20) :=
  ⟨by simp [FormEvent.inRangeOrFalsy, JsNumber.within, JsNumber.falsy]; norm_num,
   (form_state_in_range _
      (by simp [FormEvent.inRangeOrFalsy, JsNumber.within, JsNumber.falsy]; norm_num)).1,
   (form_state_in_range _
      (by simp [FormEvent.inRangeOrFalsy, JsNumber.within, JsNumber.falsy]; norm_num)).2.1⟩

/-! ## The render pass -/

theorem messageOr_spec (e : JsError) (fallback : String) (hf : fallback ≠ "") :
    e.messageOr fallback ≠ "" ∧
    (∀ m, e.message = some m → m ≠ "" → e.messageOr fallback = m) ∧
    ((e.message = none ∨ e.message = some "") → e.messageOr fallback = fallback) := by
  unfold JsError.messageOr
  cases hm : e.message with
  | none => simp [hf]
  | some m =>
    by_cases h : m = ""
    · simp [strOr, h, hf]
    · simp [strOr, h]

theorem draw_encoder_error (st : AppState) (env : RenderEnv) (cv : Canvas) (e : JsError)
    (hcv : env.canvas = some cv) (h2d : cv.has2d = true)
    (he : env.toCanvas cv (strOr st.text " ") (options st) = .error e) :
    draw st env =
      ⟨{ st with error := some (e.messageOr "Failed to render QR") },
        [CanvasOp.fillStyle "linear-gradient(to bottom right, #e0e7ff, #f9fafb)",
          CanvasOp.fillRect 0 0 cv.width cv.height],
        [⟨EncoderApi.toCanvas, strOr st.text " ", options st, none⟩], none⟩ := by
  unfold draw
  simp [hcv, h2d, he]

theorem draw_logo_error (st : AppState) (env : RenderEnv) (cv painted : Canvas)
    (url : String) (e : JsError)
    (hcv : env.canvas = some cv) (h2d : cv.has2d = true)
    (hp : env.toCanvas cv (strOr st.text " ") (options st) = .ok painted)
    (hu : st.logoDataUrl = some url) (hne : url ≠ "")
    (he : drawLogo painted url (env.loadImage url) = .error e) :
    draw st env =
      ⟨{ st with error := some (e.messageOr "Failed to render QR") },
        [CanvasOp.fillStyle "linear-gradient(to bottom right, #e0e7ff, #f9fafb)",
          CanvasOp.fillRect 0 0 cv.width cv.height],
        [⟨EncoderApi.toCanvas, strOr st.text " ", options st, none⟩], none⟩ := by
  unfold draw
  simp [hcv, h2d, hp, hu, hne, he]

theorem draw_no_context (st : AppState) (env : RenderEnv) (cv : Canvas)
    (hcv : env.canvas = some cv) (h2d : cv.has2d = false) :
    draw st env =
      ⟨{ st with error := none }, [], [], some ⟨some "Cannot set properties of null"⟩⟩ := by
  unfold draw
  simp [hcv, h2d]

/-- C7: in a render pass `draw` on a mounted canvas the encoder is called at most once
(never again after a failure). When the canvas yields its 2D context, nothing escapes the
pass and the encoder is called exactly once; if the encoder or the logo drawing fails with
`e`, the pass stops there (no logo is drawn), the error state becomes a non-empty message
(the message of `e` when that is non-empty, otherwise `"Failed to render QR"`) and
`renderCount` is unchanged; if nothing fails, the error state is null and `renderCount`
grows by exactly 1. -/
theorem draw_failure_reported (st : AppState) (env : RenderEnv) (cv : Canvas)
    (hcv : env.canvas = some cv) :
    (cv.has2d = true →
      (∀ e : JsError,
        (env.toCanvas cv (strOr st.text " ") (options st) = .error e ∨
          ∃ painted url, env.toCanvas cv (strOr st.text " ") (options st) = .ok painted ∧
            st.logoDataUrl = some url ∧ url ≠ "" ∧
            drawLogo painted url (env.loadImage url) = .error e) →
        ∃ msg : String, (draw st env).state.error = some msg ∧ msg ≠ "" ∧
          (∀ m, e.message = some m → m ≠ "" → msg = m) ∧
          ((e.message = none ∨ e.message = some "") → msg = "Failed to render QR") ∧
          (draw st env).state.renderCount = st.renderCount ∧
          (∀ op ∈ (draw st env).ops, ∀ src x y w h, op ≠ CanvasOp.drawImage src x y w h)) ∧
      (∀ painted, env.toCanvas cv (strOr st.text " ") (options st) = .ok painted →
        (st.logoDataUrl = none ∨ st.logoDataUrl = some "" ∨
          ∃ url ops, st.logoDataUrl = some url ∧
            drawLogo painted url (env.loadImage url) = .ok ops) →
        (draw st env).state.error = none ∧
        (draw st env).state.renderCount = st.renderCount + 1) ∧
      (∃ c, (draw st env).calls = [c]) ∧
      (draw st env).uncaught = none) ∧
    (draw st env).calls.length ≤ 1 ∧
    (cv.has2d = false →
      (draw st env).calls = [] ∧ (draw st env).state.error = none ∧
      (draw st env).state.renderCount = st.renderCount) := by
  refine ⟨fun h2d => ⟨?_, ?_, ?_, ?_⟩, ?_, ?_⟩
  · intro e hfail
    have hspec := messageOr_spec e "Failed to render QR" (by decide)
    have hdraw : draw st env =
        ⟨{ st with error := some (e.messageOr "Failed to render QR") },
          [CanvasOp.fillStyle "linear-gradient(to bottom right, #e0e7ff, #f9fafb)",
            CanvasOp.fillRect 0 0 cv.width cv.height],
          [⟨EncoderApi.toCanvas, strOr st.text " ", options st, none⟩], none⟩ := by
      rcases hfail with he | ⟨painted, url, hp, hu, hne, he⟩
      · exact draw_encoder_error st env cv e hcv h2d he
      · exact draw_logo_error st env cv painted url e hcv h2d hp hu hne he
    rw [hdraw]
    refine ⟨e.messageOr "Failed to render QR", rfl, hspec.1, hspec.2.1, hspec.2.2, rfl, ?_⟩
    intro op hop src x y w h
    simp only [List.mem_cons, List.mem_singleton, List.not_mem_nil, or_false] at hop
    rcases hop with rfl | rfl <;> simp
  · intro painted hp hlogo
    unfold draw
    rcases hlogo with hn | hempty | ⟨url, ops, hu, hok⟩
    · simp [hcv, h2d, hp, hn]
    · simp [hcv, h2d, hp, hempty]
    · by_cases hne : url = ""
      · simp [hcv, h2d, hp, hu, hne]
      · simp [hcv, h2d, hp, hu, hne, hok]
  · unfold draw
    rw [hcv]
    simp only [h2d]
    repeat' split
    all_goals simp_all
  · unfold draw
    rw [hcv]
    simp only [h2d]
    repeat' split
    all_goals simp_all
  · unfold draw
    repeat' split
    all_goals simp
  · intro h2d
    rw [draw_no_context st env cv hcv h2d]
    exact ⟨rfl, rfl, rfl⟩

/-- Witness for C7: the initial state rendered with an encoder that rejects the payload. -/
theorem draw_failure_reported_witness :
    failingEnv.canvas = some sampleCanvas ∧ sampleCanvas.has2d = true ∧
    (∃ msg : String, (draw initialState failingEnv).state.error = some msg ∧ msg ≠ "" ∧
      (∀ m, (JsError.mk (some "The amount of data is too big")).message = some m →
        m ≠ "" → msg = m) ∧
      ((JsError.mk (some "The amount of data is too big")).message = none ∨
        (JsError.mk (some "The amount of data is too big")).message = some "" →
        msg = "Failed to render QR") ∧
      (draw initialState failingEnv).state.renderCount = initialState.renderCount ∧
      (∀ op ∈ (draw initialState failingEnv).ops, ∀ src x y w h,
        op ≠ CanvasOp.drawImage src x y w h)) :=
  ⟨rfl, rfl,
    ((draw_failure_reported initialState failingEnv sampleCanvas rfl).1 rfl).1
      ⟨some "The amount of data is too big"⟩ (Or.inl rfl)⟩

/-! ## Export file names -/

theorem digitChar_value (d : ℕ) (h : d < 10) : (Nat.digitChar d).toNat - 48 = d := by
  interval_cases d <;> rfl

theorem toDigitsCore_fold (fuel : ℕ) : ∀ (n : ℕ) (ds : List Char), n < fuel →
    (Nat.toDigitsCore 10 fuel n ds).foldl (fun acc c => 10 * acc + (c.toNat - 48)) 0
      = ds.foldl (fun acc c => 10 * acc + (c.toNat - 48)) n := by
  induction fuel with
  | zero => intro n ds h; omega
  | succ f ih =>
    intro n ds h
    have hd := digitChar_value (n % 10) (Nat.mod_lt _ (by decide))
    unfold Nat.toDigitsCore
    by_cases h0 : n / 10 = 0
    · simp only [h0, if_true, List.foldl_cons, Nat.mul_zero, Nat.zero_add, hd]
      have : n % 10 = n := by omega
      rw [this]
    · simp only [h0, if_false]
      rw [ih (n / 10) _ (by omega)]
      simp only [List.foldl_cons, hd]
      have : 10 * (n / 10) + n % 10 = n := by omega
      rw [this]

theorem decimalValue_repr (n : ℕ) : decimalValue (Nat.repr n).data = n := by
  unfold decimalValue Nat.repr Nat.toDigits
  simp only [List.asString]
  rw [toDigitsCore_fold (n + 1) n [] (by omega)]
  rfl

theorem repr_injective (a b : ℕ) (h : Nat.repr a = Nat.repr b) : a = b := by
  have := congrArg (fun s => decimalValue s.data) h
  simpa [decimalValue_repr] using this

theorem between_inj (pre suf a b : String) (h : pre ++ a ++ suf = pre ++ b ++ suf) :
    a = b := by
  have h2 := congrArg String.data h
  simp only [String.data_append] at h2
  exact String.ext (List.append_cancel_left (List.append_cancel_right h2))

theorem png_ne_svg (a b : String) : "qr-" ++ a ++ ".png" ≠ "qr-" ++ b ++ ".svg" := by
  intro h
  have h2 := congrArg String.data h
  simp only [String.data_append] at h2
  have h3 := (List.append_inj' h2 (by rfl)).2
  revert h3
  decide

theorem downloadPNG_filename (st : AppState) (env : RenderEnv) :
    ∀ d ∈ (downloadPNG st env).downloads, d.filename = "qr-" ++ Nat.repr env.now ++ ".png" := by
  intro d hd
  unfold downloadPNG at hd
  revert hd
  repeat' split
  all_goals simp
  intro hd; subst hd; rfl

theorem downloadSVG_filename (st : AppState) (env : RenderEnv) :
    ∀ d ∈ (downloadSVG st env).downloads, d.filename = "qr-" ++ Nat.repr env.now ++ ".svg" := by
  intro d hd
  unfold downloadSVG at hd
  revert hd
  split
  all_goals simp
  intro hd; subst hd; rfl

theorem downloadPNG_started (st : AppState) (env : RenderEnv) (cv : Canvas)
    (hcv : env.canvas = some cv) (htmp : env.tmpHas2d = true) :
    (downloadPNG st env).downloads =
      [⟨env.toDataURL [CanvasOp.fillStyle (strOr st.bg "#ffffff"),
          CanvasOp.fillRect 0 0 cv.width cv.height, CanvasOp.drawCanvas 0 0],
        "qr-" ++ Nat.repr env.now ++ ".png"⟩] := by
  unfold downloadPNG
  simp only [hcv, htmp]
  rfl

theorem downloadSVG_started (st : AppState) (env : RenderEnv) (svg : String)
    (hsvg : env.toStringSvg (strOr st.text " ") (options st) = .ok svg) :
    (downloadSVG st env).downloads =
      [⟨env.createObjectURL svg, "qr-" ++ Nat.repr env.now ++ ".svg"⟩] := by
  unfold downloadSVG
  simp only [hsvg]
  rfl

/-- C8: at timestamp `t` the PNG export is named `"qr-" ++ decimal(t) ++ ".png"` and the
SVG export `"qr-" ++ decimal(t) ++ ".svg"`, where `decimal(t)` is the decimal numeral of
`t`. `downloadPNG` (with a canvas mounted and a context on the temporary canvas) starts
exactly one download, under the PNG name of `Date.now()`, and `downloadSVG` (when the
encoder succeeds) exactly one, under the SVG name; no export starts a download under
another name. Distinct timestamps give distinct PNG names and distinct SVG names, a PNG
name never equals an SVG name, and so two exports at distinct timestamps, or a PNG and an
SVG export at any timestamps, never start downloads with the same file name. -/
theorem export_names_distinct (t1 t2 : ℕ) (st : AppState) (env : RenderEnv) :
    pngName t1 = "qr-" ++ Nat.repr t1 ++ ".png" ∧
    svgName t1 = "qr-" ++ Nat.repr t1 ++ ".svg" ∧
    decimalValue (Nat.repr t1).data = t1 ∧
    (∀ d ∈ (downloadPNG st env).downloads, d.filename = "qr-" ++ Nat.repr env.now ++ ".png") ∧
    (∀ d ∈ (downloadSVG st env).downloads, d.filename = "qr-" ++ Nat.repr env.now ++ ".svg") ∧
    (t1 ≠ t2 → pngName t1 ≠ pngName t2 ∧ svgName t1 ≠ svgName t2) ∧
    pngName t1 ≠ svgName t2 ∧
    (∀ cv, env.canvas = some cv → env.tmpHas2d = true →
      (downloadPNG st env).downloads =
        [⟨env.toDataURL [CanvasOp.fillStyle (strOr st.bg "#ffffff"),
            CanvasOp.fillRect 0 0 cv.width cv.height, CanvasOp.drawCanvas 0 0],
          "qr-" ++ Nat.repr env.now ++ ".png"⟩]) ∧
    (∀ svg, env.toStringSvg (strOr st.text " ") (options st) = .ok svg →
      (downloadSVG st env).downloads =
        [⟨env.createObjectURL svg, "qr-" ++ Nat.repr env.now ++ ".svg"⟩]) ∧
    (∀ (st2 : AppState) (env2 : RenderEnv), env.now ≠ env2.now →
      (∀ d ∈ (downloadPNG st env).downloads, ∀ d2 ∈ (downloadPNG st2 env2).downloads,
        d.filename ≠ d2.filename) ∧
      (∀ d ∈ (downloadSVG st env).downloads, ∀ d2 ∈ (downloadSVG st2 env2).downloads,
        d.filename ≠ d2.filename)) ∧
    (∀ (st2 : AppState) (env2 : RenderEnv),
      ∀ d ∈ (downloadPNG st env).downloads, ∀ d2 ∈ (downloadSVG st2 env2).downloads,
        d.filename ≠ d2.filename) := by
  refine ⟨rfl, rfl, decimalValue_repr t1, downloadPNG_filename st env,
    downloadSVG_filename st env, ?_, png_ne_svg _ _, ?_, ?_, ?_, ?_⟩
  · intro hne
    constructor
    · intro h
      exact hne (repr_injective _ _ (between_inj "qr-" ".png" _ _ h))
    · intro h
      exact hne (repr_injective _ _ (between_inj "qr-" ".svg" _ _ h))
  · intro cv hcv htmp
    exact downloadPNG_started st env cv hcv htmp
  · intro svg hsvg
    exact downloadSVG_started st env svg hsvg
  · intro st2 env2 hne
    constructor
    · intro d hd d2 hd2 h
      rw [downloadPNG_filename st env d hd, downloadPNG_filename st2 env2 d2 hd2] at h
      exact hne (repr_injective _ _ (between_inj "qr-" ".png" _ _ h))
    · intro d hd d2 hd2 h
      rw [downloadSVG_filename st env d hd, downloadSVG_filename st2 env2 d2 hd2] at h
      exact hne (repr_injective _ _ (between_inj "qr-" ".svg" _ _ h))
  · intro st2 env2 d hd d2 hd2 h
    rw [downloadPNG_filename st env d hd, downloadSVG_filename st2 env2 d2 hd2] at h
    exact png_ne_svg _ _ h

/-- Witness for C8: a PNG and an SVG export on the sample surface, and two timestamps one
millisecond apart. -/
theorem export_names_distinct_witness :
    (sampleEnv.canvas = some sampleCanvas ∧ sampleEnv.tmpHas2d = true ∧
      (downloadPNG initialState sampleEnv).downloads =
        [⟨sampleEnv.toDataURL [CanvasOp.fillStyle (strOr initialState.bg "#ffffff"),
            CanvasOp.fillRect 0 0 sampleCanvas.width sampleCanvas.height,
            CanvasOp.drawCanvas 0 0],
          "qr-" ++ Nat.repr sampleEnv.now ++ ".png"⟩]) ∧
    (sampleEnv.toStringSvg (strOr initialState.text " ") (options initialState) = .ok "<svg/>" ∧
      (downloadSVG initialState sampleEnv).downloads =
        [⟨sampleEnv.createObjectURL "<svg/>", "qr-" ++ Nat.repr sampleEnv.now ++ ".svg"⟩]) ∧
    ((1700000000000 : ℕ) ≠ 1700000000001 ∧
      pngName 1700000000000 ≠ pngName 1700000000001 ∧
      svgName 1700000000000 ≠ svgName 1700000000001) :=
  ⟨⟨rfl, rfl,
      (export_names_distinct 1700000000000 1700000000001 initialState sampleEnv).2.2.2.2.2.2.2.1
        sampleCanvas rfl rfl⟩,
    ⟨rfl,
      (export_names_distinct 1700000000000 1700000000001 initialState sampleEnv).2.2.2.2.2.2.2.2.1
        "<svg/>" rfl⟩,
    ⟨by decide,
      (export_names_distinct 1700000000000 1700000000001 initialState sampleEnv).2.2.2.2.2.1
        (by decide)⟩⟩

end QRGen
